import Mathlib

/-!
Shallow embedding of the pdns-nodesdk client library (a typed Node.js client
for the PowerDNS management HTTP API) and proofs about its request-building
behaviour.

Each resource-module method of the library builds one path/query/body triple
and performs exactly one call on the shared ApiClient transport, returning the
transport's promise unchanged.  We model

  * a transport invocation as a `TransportCall` record (verb, path, body);
  * every method by a `...Call` function computing the `TransportCall` it
    issues, translated line by line from the TypeScript source; and
  * the value/error passthrough of the `async` methods by functions that take
    an arbitrary transport stub `t : TransportCall → Except ε α` and bind its
    result, mirroring `return this.client.verb(path, body)`.

JavaScript percent-encoding is modelled faithfully: `encodeURIComponent`
(used by Cache.flushCache) and the WHATWG application/x-www-form-urlencoded
serializer of `URLSearchParams.toString()` (used by Searching.searchData),
both over the UTF-8 bytes of the input.
-/

namespace PdnsSdk

/-- JSON-serializable values, as passed to the transport as request bodies.
Numbers are modelled as integers (no claim depends on non-integer numbers). -/
inductive JsonValue where
  | null : JsonValue
  | bool : Bool → JsonValue
  | num : Int → JsonValue
  | str : String → JsonValue
  | arr : List JsonValue → JsonValue
  | obj : List (String × JsonValue) → JsonValue

/-- HTTP verbs exposed by the ApiClient transport (get/post/put/patch/delete). -/
inductive Verb where
  | get : Verb
  | post : Verb
  | put : Verb
  | patch : Verb
  | delete : Verb
deriving DecidableEq, Repr

/-- One transport invocation: the verb, the fully formed path (query string
included) and the body handed to the ApiClient method (`none` when the verb
takes no body argument, `some JsonValue.null` when the source passes an
explicit `null`). -/
structure TransportCall where
  verb : Verb
  path : String
  body : Option JsonValue

/-- Uppercase hexadecimal digit character, as produced by JavaScript
percent-encoding (digit values 0–15). -/
def hexDigitChar (n : Nat) : Char :=
  if n < 10 then Char.ofNat (48 + n) else Char.ofNat (55 + n)

/-- Percent-escape of one byte value: a percent sign followed by two uppercase
hexadecimal digits. -/
def percentByte (b : Nat) : String :=
  "%" ++ String.singleton (hexDigitChar (b / 16 % 16)) ++ String.singleton (hexDigitChar (b % 16))

/-- UTF-8 encoding of a character, as the list of its byte values. -/
def utf8Bytes (c : Char) : List Nat :=
  if c.toNat < 128 then [c.toNat]
  else if c.toNat < 2048 then [192 + c.toNat / 64, 128 + c.toNat % 64]
  else if c.toNat < 65536 then
    [224 + c.toNat / 4096, 128 + c.toNat / 64 % 64, 128 + c.toNat % 64]
  else
    [240 + c.toNat / 262144, 128 + c.toNat / 4096 % 64, 128 + c.toNat / 64 % 64, 128 + c.toNat % 64]

/-- Characters left verbatim by the ECMAScript `encodeURIComponent` function:
ASCII alphanumerics and minus, underscore, dot, exclamation mark, tilde,
asterisk, apostrophe and parentheses. -/
def uriUnreserved (c : Char) : Bool :=
  c.isAlphanum || c = Char.ofNat 45 || c = Char.ofNat 95 || c = Char.ofNat 46 ||
    c = Char.ofNat 33 || c = Char.ofNat 126 || c = Char.ofNat 42 || c = Char.ofNat 39 ||
    c = Char.ofNat 40 || c = Char.ofNat 41

/-- Encoding of one character under `encodeURIComponent`: unreserved
characters stay verbatim, all others become the percent-escapes of their
UTF-8 bytes. -/
def encodeURIComponentChar (c : Char) : String :=
  if uriUnreserved c then String.singleton c
  else String.join ((utf8Bytes c).map percentByte)

/-- Model of the ECMAScript `encodeURIComponent` function. -/
def encodeURIComponent (s : String) : String :=
  String.join (s.data.map encodeURIComponentChar)

/-- Characters left verbatim by the WHATWG application/x-www-form-urlencoded
serializer (used by `URLSearchParams.toString()`): ASCII alphanumerics and
asterisk, minus, dot, underscore. -/
def formSafe (c : Char) : Bool :=
  c.isAlphanum || c = Char.ofNat 42 || c = Char.ofNat 45 || c = Char.ofNat 46 || c = Char.ofNat 95

/-- Encoding of one character under the form-urlencoded serializer: space
becomes a plus sign, safe characters stay verbatim, all others become the
percent-escapes of their UTF-8 bytes. -/
def formUrlEncodeChar (c : Char) : String :=
  if c = Char.ofNat 32 then "+"
  else if formSafe c then String.singleton c
  else String.join ((utf8Bytes c).map percentByte)

/-- Form-urlencoding of a whole string (one component of a key=value pair). -/
def formUrlEncode (s : String) : String :=
  String.join (s.data.map formUrlEncodeChar)

/-- Serialization of `URLSearchParams.toString()`: each pair becomes
`key=value` with both sides form-urlencoded, pairs joined with ampersands in
insertion order. -/
def serializePairs : List (String × String) → String
  | [] => ""
  | [(k, v)] => formUrlEncode k ++ "=" ++ formUrlEncode v
  | (k, v) :: p :: rest => formUrlEncode k ++ "=" ++ formUrlEncode v ++ "&" ++ serializePairs (p :: rest)

/-- Model of JavaScript `Array.prototype.join` with separator ampersand, as
used by Statistics.getStatistics on its query-parameter array. -/
def joinAmp : List String → String
  | [] => ""
  | [x] => x
  | x :: y :: rest => x ++ "&" ++ joinAmp (y :: rest)

end PdnsSdk

namespace PdnsSdk.Zones

/-- Call issued by Zones.getZone (Zones.ts line 117):
GET /servers/serverId/zones/zoneId, no body. -/
def getZoneCall (serverId zoneId : String) : TransportCall :=
  ⟨Verb.get, "/servers/" ++ serverId ++ "/zones/" ++ zoneId, none⟩

/-- Call issued by Zones.createZone (Zones.ts line 204):
POST /servers/serverId/zones with the caller's zone data as body. -/
def createZoneCall (serverId : String) (zoneData : JsonValue) : TransportCall :=
  ⟨Verb.post, "/servers/" ++ serverId ++ "/zones", some zoneData⟩

/-- Call issued by Zones.deleteZone (Zones.ts line 223):
DELETE /servers/serverId/zones/zoneId, no body. -/
def deleteZoneCall (serverId zoneId : String) : TransportCall :=
  ⟨Verb.delete, "/servers/" ++ serverId ++ "/zones/" ++ zoneId, none⟩

/-- Call issued by Zones.updateZoneRRsets (Zones.ts line 258):
PATCH /servers/serverId/zones/zoneId with the RRset change set as body. -/
def updateZoneRRsetsCall (serverId zoneId : String) (rrsetData : JsonValue) : TransportCall :=
  ⟨Verb.patch, "/servers/" ++ serverId ++ "/zones/" ++ zoneId, some rrsetData⟩

/-- Call issued by Zones.modifyZone (Zones.ts line 284):
PUT /servers/serverId/zones/zoneId with the partial zone fields as body. -/
def modifyZoneCall (serverId zoneId : String) (zoneData : JsonValue) : TransportCall :=
  ⟨Verb.put, "/servers/" ++ serverId ++ "/zones/" ++ zoneId, some zoneData⟩

/-- Call issued by Zones.exportZone (Zones.ts line 344):
GET /servers/serverId/zones/zoneId/export, no body. -/
def exportZoneCall (serverId zoneId : String) : TransportCall :=
  ⟨Verb.get, "/servers/" ++ serverId ++ "/zones/" ++ zoneId ++ "/export", none⟩

/-- Execution of Zones.getZone against a transport stub: the method performs
the single call and returns its outcome unchanged. -/
def getZone {ε α : Type} (t : TransportCall → Except ε α) (serverId zoneId : String) :
    Except ε α := do
  let v ← t (getZoneCall serverId zoneId)
  pure v

/-- Execution of Zones.createZone against a transport stub. -/
def createZone {ε α : Type} (t : TransportCall → Except ε α) (serverId : String)
    (zoneData : JsonValue) : Except ε α := do
  let v ← t (createZoneCall serverId zoneData)
  pure v

/-- Execution of Zones.updateZoneRRsets against a transport stub. -/
def updateZoneRRsets {ε α : Type} (t : TransportCall → Except ε α) (serverId zoneId : String)
    (rrsetData : JsonValue) : Except ε α := do
  let v ← t (updateZoneRRsetsCall serverId zoneId rrsetData)
  pure v

/-- Execution of Zones.modifyZone against a transport stub. -/
def modifyZone {ε α : Type} (t : TransportCall → Except ε α) (serverId zoneId : String)
    (zoneData : JsonValue) : Except ε α := do
  let v ← t (modifyZoneCall serverId zoneId zoneData)
  pure v

/-- Execution of Zones.exportZone against a transport stub. -/
def exportZone {ε α : Type} (t : TransportCall → Except ε α) (serverId zoneId : String) :
    Except ε α := do
  let v ← t (exportZoneCall serverId zoneId)
  pure v

end PdnsSdk.Zones

namespace PdnsSdk.Metadata

/-- Call issued by Metadata.getMetadata (Metadata.ts line 115):
GET /servers/serverId/zones/zoneId/metadata/metadataKind, no body. -/
def getMetadataCall (serverId zoneId metadataKind : String) : TransportCall :=
  ⟨Verb.get, "/servers/" ++ serverId ++ "/zones/" ++ zoneId ++ "/metadata/" ++ metadataKind, none⟩

/-- Call issued by Metadata.updateMetadata (Metadata.ts line 141): PUT on the
metadata-kind path with the bare `metadataValues` array as body — the source
passes `metadataValues` directly to `client.put`, with no wrapper object
around it. -/
def updateMetadataCall (serverId zoneId metadataKind : String)
    (metadataValues : List String) : TransportCall :=
  ⟨Verb.put, "/servers/" ++ serverId ++ "/zones/" ++ zoneId ++ "/metadata/" ++ metadataKind,
    some (JsonValue.arr (metadataValues.map JsonValue.str))⟩

/-- Execution of Metadata.getMetadata against a transport stub. -/
def getMetadata {ε α : Type} (t : TransportCall → Except ε α)
    (serverId zoneId metadataKind : String) : Except ε α := do
  let v ← t (getMetadataCall serverId zoneId metadataKind)
  pure v

/-- Execution of Metadata.updateMetadata against a transport stub. -/
def updateMetadata {ε α : Type} (t : TransportCall → Except ε α)
    (serverId zoneId metadataKind : String) (metadataValues : List String) : Except ε α := do
  let v ← t (updateMetadataCall serverId zoneId metadataKind metadataValues)
  pure v

end PdnsSdk.Metadata

namespace PdnsSdk.Cryptokeys

/-- Call issued by Cryptokeys.getKey (Cryptokeys source, line 545 of the
concatenated Zones.ts file): GET on the cryptokey path, the numeric key id
rendered in decimal by the template literal. -/
def getKeyCall (serverId zoneId : String) (keyId : Nat) : TransportCall :=
  ⟨Verb.get,
    "/servers/" ++ serverId ++ "/zones/" ++ zoneId ++ "/cryptokeys/" ++ Nat.repr keyId, none⟩

/-- Execution of Cryptokeys.getKey against a transport stub. -/
def getKey {ε α : Type} (t : TransportCall → Except ε α) (serverId zoneId : String)
    (keyId : Nat) : Except ε α := do
  let v ← t (getKeyCall serverId zoneId keyId)
  pure v

end PdnsSdk.Cryptokeys

namespace PdnsSdk.Searching

/-- Call issued by Searching.searchData (Searching source, line 186 of the
concatenated Statistics.ts file): GET /servers/serverId/search-data? followed
by the URLSearchParams serialization of q, max, object_type, in that order.
The JavaScript number `maxResults` is modelled as a natural number; its
`toString()` is `Nat.repr`.  Defaults mirror the source: 100 and "all". -/
def searchDataCall (serverId query : String) (maxResults : Nat := 100)
    (objectType : String := "all") : TransportCall :=
  ⟨Verb.get,
    "/servers/" ++ serverId ++ "/search-data?" ++
      serializePairs [("q", query), ("max", Nat.repr maxResults), ("object_type", objectType)],
    none⟩

/-- Execution of Searching.searchData against a transport stub. -/
def searchData {ε α : Type} (t : TransportCall → Except ε α) (serverId query : String)
    (maxResults : Nat := 100) (objectType : String := "all") : Except ε α := do
  let v ← t (searchDataCall serverId query maxResults objectType)
  pure v

end PdnsSdk.Searching

namespace PdnsSdk.Statistics

/-- Optional query options of Statistics.getStatistics; a `none` field is an
absent (undefined) property in the source. -/
structure StatisticsOptions where
  statistic : Option String
  includerings : Option Bool

/-- JavaScript rendering of a boolean in a template literal. -/
def boolString (b : Bool) : String := if b then "true" else "false"

/-- Query parameters pushed by Statistics.getStatistics (Statistics.ts lines
76–82).  The statistic parameter is guarded by JavaScript truthiness, so an
empty string is skipped like an absent one; the includerings parameter is
guarded by a strict undefined comparison, so `false` is still pushed. -/
def statisticsQueryParams : Option StatisticsOptions → List String
  | none => []
  | some o =>
      (match o.statistic with
        | some st => if st = "" then [] else ["statistic=" ++ st]
        | none => []) ++
      (match o.includerings with
        | some b => ["includerings=" ++ boolString b]
        | none => [])

/-- Call issued by Statistics.getStatistics (Statistics.ts lines 76–84):
GET /servers/serverId/statistics plus a question mark and the
ampersand-joined parameters when at least one parameter was pushed. -/
def getStatisticsCall (serverId : String)
    (options : Option StatisticsOptions := none) : TransportCall :=
  let qp := statisticsQueryParams options
  let queryString := if qp.length > 0 then "?" ++ joinAmp qp else ""
  ⟨Verb.get, "/servers/" ++ serverId ++ "/statistics" ++ queryString, none⟩

/-- Execution of Statistics.getStatistics against a transport stub. -/
def getStatistics {ε α : Type} (t : TransportCall → Except ε α) (serverId : String)
    (options : Option StatisticsOptions := none) : Except ε α := do
  let v ← t (getStatisticsCall serverId options)
  pure v

end PdnsSdk.Statistics

namespace PdnsSdk.Cache

/-- Call issued by Cache.flushCache (Cache source, lines 244–245 of the
concatenated index.ts file): PUT /servers/serverId/cache/flush? followed by
`domain=` and the encodeURIComponent-encoded domain, with an explicit null
body. -/
def flushCacheCall (serverId domain : String) : TransportCall :=
  ⟨Verb.put,
    "/servers/" ++ serverId ++ "/cache/flush?" ++ ("domain=" ++ encodeURIComponent domain),
    some JsonValue.null⟩

/-- Execution of Cache.flushCache against a transport stub. -/
def flushCache {ε α : Type} (t : TransportCall → Except ε α) (serverId domain : String) :
    Except ε α := do
  let v ← t (flushCacheCall serverId domain)
  pure v

end PdnsSdk.Cache

namespace PdnsSdk

/-- Merging two adjacent literal substrings inside a right-associated
character-list concatenation, given the merged literal. -/
theorem mergeData (a b c : String) (h : a ++ b = c) (X : List Char) :
    a.data ++ (b.data ++ X) = c.data ++ X := by
  have hd : a.data ++ b.data = c.data := by rw [← String.data_append, h]
  rw [← List.append_assoc, hd]

/-- Merging two adjacent literal substrings at the end of a right-associated
character-list concatenation. -/
theorem mergeDataEnd (a b c : String) (h : a ++ b = c) :
    a.data ++ b.data = c.data := by
  rw [← String.data_append, h]

/-- The UTF-8 encoding of a character is never empty. -/
theorem utf8Bytes_cons (c : Char) : ∃ b l, utf8Bytes c = b :: l := by
  unfold utf8Bytes
  repeat' split
  all_goals exact ⟨_, _, rfl⟩

/-- The flush-cache path equals the documented template around the
percent-encoded domain. -/
theorem flushCache_path_eq (serverId domain : String) :
    (Cache.flushCacheCall serverId domain).path
      = "/servers/" ++ serverId ++ "/cache/flush?domain=" ++ encodeURIComponent domain := by
  apply String.ext
  simp only [Cache.flushCacheCall, String.data_append, List.append_assoc,
    mergeData "/cache/flush?" "domain=" "/cache/flush?domain=" (by decide)]

/-- The search path equals the documented template around the form-urlencoded
query, maximum and object type. -/
theorem searchData_path_eq (serverId query : String) (maxResults : Nat) (objectType : String) :
    (Searching.searchDataCall serverId query maxResults objectType).path
      = "/servers/" ++ serverId ++ "/search-data?q=" ++ formUrlEncode query ++ "&max="
          ++ formUrlEncode (Nat.repr maxResults) ++ "&object_type=" ++ formUrlEncode objectType := by
  have hq : formUrlEncode "q" = "q" := by decide
  have hm : formUrlEncode "max" = "max" := by decide
  have ho : formUrlEncode "object_type" = "object_type" := by decide
  simp only [Searching.searchDataCall, serializePairs, hq, hm, ho]
  apply String.ext
  simp only [String.data_append, List.append_assoc,
    mergeData "/search-data?" "q" "/search-data?q" (by decide),
    mergeData "/search-data?q" "=" "/search-data?q=" (by decide),
    mergeData "&" "max" "&max" (by decide),
    mergeData "&max" "=" "&max=" (by decide),
    mergeData "&" "object_type" "&object_type" (by decide),
    mergeData "&object_type" "=" "&object_type=" (by decide),
    mergeDataEnd "&object_type=" "all" "&object_type=all" (by decide)]

/-- The search path with the source's default arguments: maximum 100 and
object type all. -/
theorem searchData_default_path_eq (serverId query : String) :
    (Searching.searchDataCall serverId query).path
      = "/servers/" ++ serverId ++ "/search-data?q=" ++ formUrlEncode query
          ++ "&max=100&object_type=all" := by
  have h := searchData_path_eq serverId query 100 "all"
  have h100 : formUrlEncode (Nat.repr 100) = "100" := by decide
  have hall : formUrlEncode "all" = "all" := by decide
  rw [h100, hall] at h
  rw [h]
  apply String.ext
  simp only [String.data_append, List.append_assoc,
    mergeData "&max=" "100" "&max=100" (by decide),
    mergeData "&max=100" "&object_type=" "&max=100&object_type=" (by decide),
    mergeDataEnd "&max=100&object_type=" "all" "&max=100&object_type=all" (by decide)]

end PdnsSdk

namespace PdnsSdk

/-- C1: evaluated at the input of the repository's unit test, the body that
Metadata.updateMetadata hands to the transport put is the bare JSON array of
the metadata values; it is not the wrapper object with a single metadata
field that the specification and the unit test require. -/
theorem c1_updateMetadata_sends_bare_array :
    (Metadata.updateMetadataCall "localhost" "example.org." "ALLOW-AXFR-FROM"
        ["192.0.2.3"]).body
      = some (JsonValue.arr [JsonValue.str "192.0.2.3"])
    ∧ (Metadata.updateMetadataCall "localhost" "example.org." "ALLOW-AXFR-FROM"
        ["192.0.2.3"]).verb = Verb.put
    ∧ (Metadata.updateMetadataCall "localhost" "example.org." "ALLOW-AXFR-FROM"
        ["192.0.2.3"]).path
      = "/servers/localhost/zones/example.org./metadata/ALLOW-AXFR-FROM"
    ∧ some (JsonValue.arr [JsonValue.str "192.0.2.3"])
      ≠ some (JsonValue.obj [("metadata", JsonValue.arr [JsonValue.str "192.0.2.3"])]) := by
  refine ⟨rfl, rfl, rfl, ?_⟩
  intro h
  exact JsonValue.noConfusion (Option.some.inj h)

/-- C3: Cache.flushCache issues a single transport put whose path is the
cache-flush template with the percent-encoded domain as the domain query
parameter and whose body is the explicit null; at the concrete example the
path is exactly the documented string. -/
theorem c3_flushCache_put_null_body (serverId domain : String) :
    Cache.flushCacheCall serverId domain
      = ⟨Verb.put,
          "/servers/" ++ serverId ++ "/cache/flush?domain=" ++ encodeURIComponent domain,
          some JsonValue.null⟩
    ∧ (Cache.flushCacheCall "localhost" "example.com").path
      = "/servers/localhost/cache/flush?domain=example.com" := by
  constructor
  · simp only [Cache.flushCacheCall, TransportCall.mk.injEq, true_and, and_true]
    apply String.ext
    simp only [String.data_append, List.append_assoc,
      mergeData "/cache/flush?" "domain=" "/cache/flush?domain=" (by decide)]
  · decide

/-- C5: zone ids (and the other path-segment identifiers) are inserted into
the path templates verbatim, character for character, with no encoding or
trimming; in particular a trailing dot survives, as the concrete example
shows. -/
theorem c5_path_segments_verbatim (serverId zoneId metadataKind : String) (keyId : Nat) :
    (Zones.getZoneCall serverId zoneId).path
      = "/servers/" ++ serverId ++ "/zones/" ++ zoneId
    ∧ (Metadata.getMetadataCall serverId zoneId metadataKind).path
      = "/servers/" ++ serverId ++ "/zones/" ++ zoneId ++ "/metadata/" ++ metadataKind
    ∧ (Cryptokeys.getKeyCall serverId zoneId keyId).path
      = "/servers/" ++ serverId ++ "/zones/" ++ zoneId ++ "/cryptokeys/" ++ Nat.repr keyId
    ∧ (Zones.getZoneCall "localhost" "example.org.").path
      = "/servers/localhost/zones/example.org." :=
  ⟨rfl, rfl, rfl, by decide⟩

/-- C7: each zone operation delegates to its one fixed transport verb —
updateZoneRRsets always patches, modifyZone always puts and createZone always
posts, every call producing exactly this single transport invocation. -/
theorem c7_zone_operation_verbs (serverId zoneId : String)
    (rrsetData zoneData newZone : JsonValue) :
    Zones.updateZoneRRsetsCall serverId zoneId rrsetData
      = ⟨Verb.patch, "/servers/" ++ serverId ++ "/zones/" ++ zoneId, some rrsetData⟩
    ∧ Zones.modifyZoneCall serverId zoneId zoneData
      = ⟨Verb.put, "/servers/" ++ serverId ++ "/zones/" ++ zoneId, some zoneData⟩
    ∧ Zones.createZoneCall serverId newZone
      = ⟨Verb.post, "/servers/" ++ serverId ++ "/zones", some newZone⟩ :=
  ⟨rfl, rfl, rfl⟩

/-- C2 counterexample: the asterisk is not percent-encoded in either
query-string position.  The search query goes through the URLSearchParams
form-urlencoded serializer, which leaves the asterisk verbatim and turns a
space into a plus sign rather than a percent-escape, and the cache-flush
domain goes through encodeURIComponent, which also leaves the asterisk
verbatim — so a raw asterisk character appears in both constructed paths. -/
theorem c2_star_and_space_not_percent_encoded :
    (Searching.searchDataCall "localhost" "* ").path
      = "/servers/localhost/search-data?q=*+&max=100&object_type=all"
    ∧ Char.ofNat 42 ∈ (Searching.searchDataCall "localhost" "* ").path.data
    ∧ (Cache.flushCacheCall "localhost" "*.com").path
      = "/servers/localhost/cache/flush?domain=*.com"
    ∧ Char.ofNat 42 ∈ (Cache.flushCacheCall "localhost" "*.com").path.data :=
  ⟨by decide, by decide, by decide, by decide⟩

/-- C2 amended: identifiers in query-string positions are encoded by the
encoder the source actually applies.  The search query is form-urlencoded
(URLSearchParams): a space becomes a plus sign, characters outside the safe
set (alphanumerics, asterisk, minus, dot, underscore) become the
percent-escapes of their UTF-8 bytes, and the asterisk stays verbatim.  The
cache-flush domain is encoded with encodeURIComponent: characters outside its
unreserved set become percent-escapes of their UTF-8 bytes, while the
asterisk (among others) stays verbatim. -/
theorem c2_query_encoding_amended (serverId query domain : String) :
    (Searching.searchDataCall serverId query).path
      = "/servers/" ++ serverId ++ "/search-data?q=" ++ formUrlEncode query
          ++ "&max=100&object_type=all"
    ∧ (Cache.flushCacheCall serverId domain).path
      = "/servers/" ++ serverId ++ "/cache/flush?domain=" ++ encodeURIComponent domain
    ∧ (∀ c : Char, formSafe c = false → c ≠ Char.ofNat 32 →
        formUrlEncodeChar c = String.join ((utf8Bytes c).map percentByte) ∧ utf8Bytes c ≠ [])
    ∧ formUrlEncodeChar (Char.ofNat 32) = "+"
    ∧ (∀ c : Char, uriUnreserved c = false →
        encodeURIComponentChar c = String.join ((utf8Bytes c).map percentByte)
          ∧ utf8Bytes c ≠ []) := by
  refine ⟨searchData_default_path_eq serverId query, flushCache_path_eq serverId domain,
    ?_, by decide, ?_⟩
  · intro c h1 h2
    obtain ⟨b, l, hb⟩ := utf8Bytes_cons c
    refine ⟨by simp [formUrlEncodeChar, h1, h2], by simp [hb]⟩
  · intro c h1
    obtain ⟨b, l, hb⟩ := utf8Bytes_cons c
    refine ⟨by simp [encodeURIComponentChar, h1], by simp [hb]⟩

/-- C2 amended witness: the percent character (code 37) is outside both safe
sets and is rendered as percent-escapes of its UTF-8 bytes by both encoders. -/
theorem c2_query_encoding_amended_witness :
    formUrlEncodeChar (Char.ofNat 37) = String.join ((utf8Bytes (Char.ofNat 37)).map percentByte)
    ∧ encodeURIComponentChar (Char.ofNat 37)
      = String.join ((utf8Bytes (Char.ofNat 37)).map percentByte) :=
  ⟨((c2_query_encoding_amended "s" "q" "d").2.2.1 (Char.ofNat 37) (by decide) (by decide)).1,
   ((c2_query_encoding_amended "s" "q" "d").2.2.2.2 (Char.ofNat 37) (by decide)).1⟩

/-- C4: searchData without the optional arguments issues a GET with query
parameters q (the encoded query), max=100 and object_type=all; with the
optional arguments supplied, the supplied values appear instead; and at the
documented concrete example the path is exactly the documented string, the
asterisk verbatim. -/
theorem c4_searchData_params_and_defaults (serverId query : String) (maxResults : Nat)
    (objectType : String) :
    Searching.searchDataCall serverId query
      = ⟨Verb.get,
          "/servers/" ++ serverId ++ "/search-data?q=" ++ formUrlEncode query
            ++ "&max=100&object_type=all",
          none⟩
    ∧ (Searching.searchDataCall serverId query maxResults objectType).path
      = "/servers/" ++ serverId ++ "/search-data?q=" ++ formUrlEncode query ++ "&max="
          ++ formUrlEncode (Nat.repr maxResults) ++ "&object_type=" ++ formUrlEncode objectType
    ∧ (Searching.searchDataCall "localhost" "*.org" 5 "zone").path
      = "/servers/localhost/search-data?q=*.org&max=5&object_type=zone" :=
  ⟨congrArg (fun p => TransportCall.mk Verb.get p none) (searchData_default_path_eq serverId query),
   searchData_path_eq serverId query maxResults objectType,
   by decide⟩

/-- C6: getStatistics with no options builds the bare statistics path with no
query string; with options, exactly the set parameters appear — statistic
first, joined with an ampersand — and an unset parameter is omitted.  The
statistic value is required to be nonempty here because the source guards it
by JavaScript truthiness (the empty-string case is the subject of the
companion falsy-asymmetry theorem). -/
theorem c6_getStatistics_query (serverId st : String) (b : Bool) (hst : st ≠ "") :
    (Statistics.getStatisticsCall serverId).path = "/servers/" ++ serverId ++ "/statistics"
    ∧ (Statistics.getStatisticsCall serverId (some ⟨some st, some b⟩)).path
      = "/servers/" ++ serverId ++ "/statistics?statistic=" ++ st ++ "&includerings="
          ++ Statistics.boolString b
    ∧ (Statistics.getStatisticsCall serverId (some ⟨some st, none⟩)).path
      = "/servers/" ++ serverId ++ "/statistics?statistic=" ++ st
    ∧ (Statistics.getStatisticsCall serverId (some ⟨none, some b⟩)).path
      = "/servers/" ++ serverId ++ "/statistics?includerings=" ++ Statistics.boolString b
    ∧ (Statistics.getStatisticsCall serverId (some ⟨none, none⟩)).path
      = "/servers/" ++ serverId ++ "/statistics" := by
  refine ⟨?_, ?_, ?_, ?_, ?_⟩
  · simp [Statistics.getStatisticsCall, Statistics.statisticsQueryParams, String.append_empty]
  · apply String.ext
    simp [Statistics.getStatisticsCall, Statistics.statisticsQueryParams, joinAmp, hst,
      String.data_append, List.append_assoc,
      mergeData "/statistics" "?" "/statistics?" (by decide),
      mergeData "/statistics?" "statistic=" "/statistics?statistic=" (by decide),
      mergeData "&" "includerings=" "&includerings=" (by decide)]
  · apply String.ext
    simp [Statistics.getStatisticsCall, Statistics.statisticsQueryParams, joinAmp, hst,
      String.data_append, List.append_assoc,
      mergeData "/statistics" "?" "/statistics?" (by decide),
      mergeData "/statistics?" "statistic=" "/statistics?statistic=" (by decide)]
  · apply String.ext
    simp [Statistics.getStatisticsCall, Statistics.statisticsQueryParams, joinAmp,
      String.data_append, List.append_assoc,
      mergeData "/statistics" "?" "/statistics?" (by decide),
      mergeData "/statistics?" "includerings=" "/statistics?includerings=" (by decide)]
  · simp [Statistics.getStatisticsCall, Statistics.statisticsQueryParams, String.append_empty]

/-- C6 witness: the concrete documented example with both options set. -/
theorem c6_getStatistics_query_witness :
    (Statistics.getStatisticsCall "localhost" (some ⟨some "cache-hits", some true⟩)).path
      = "/servers/" ++ "localhost" ++ "/statistics?statistic=" ++ "cache-hits"
          ++ "&includerings=" ++ Statistics.boolString true :=
  (c6_getStatistics_query "localhost" "cache-hits" true (by decide)).2.1

/-- C10: getStatistics treats its two optional parameters asymmetrically — a
statistic equal to the empty string is falsy and therefore omitted exactly as
if it were absent, whereas includerings set to false is still emitted as
includerings=false, only an absent includerings being omitted. -/
theorem c10_statistics_falsy_asymmetry (serverId : String) (incl : Option Bool) :
    Statistics.getStatisticsCall serverId (some ⟨some "", incl⟩)
      = Statistics.getStatisticsCall serverId (some ⟨none, incl⟩)
    ∧ (Statistics.getStatisticsCall serverId (some ⟨none, some false⟩)).path
      = "/servers/" ++ serverId ++ "/statistics?includerings=false"
    ∧ (Statistics.getStatisticsCall serverId (some ⟨none, none⟩)).path
      = "/servers/" ++ serverId ++ "/statistics" := by
  refine ⟨?_, ?_, ?_⟩
  · cases incl <;> rfl
  · apply String.ext
    simp [Statistics.getStatisticsCall, Statistics.statisticsQueryParams, joinAmp,
      Statistics.boolString, String.data_append, List.append_assoc,
      mergeData "/statistics" "?" "/statistics?" (by decide),
      mergeData "/statistics?" "includerings=" "/statistics?includerings=" (by decide),
      mergeDataEnd "/statistics?includerings=" "false" "/statistics?includerings=false" (by decide)]
  · simp [Statistics.getStatisticsCall, Statistics.statisticsQueryParams, String.append_empty]

/-- C8: when the transport stub rejects the constructed call with an error,
each module method rejects with the very same error value — no catching,
wrapping or substitute result.  Stated for every method modelled from the
source. -/
theorem c8_error_propagation {ε α : Type} (t : TransportCall → Except ε α) (e : ε)
    (serverId zoneId metadataKind query domain : String) (body : JsonValue)
    (values : List String) (keyId : Nat) (options : Option Statistics.StatisticsOptions) :
    (t (Zones.getZoneCall serverId zoneId) = Except.error e →
        Zones.getZone t serverId zoneId = Except.error e)
    ∧ (t (Zones.createZoneCall serverId body) = Except.error e →
        Zones.createZone t serverId body = Except.error e)
    ∧ (t (Zones.updateZoneRRsetsCall serverId zoneId body) = Except.error e →
        Zones.updateZoneRRsets t serverId zoneId body = Except.error e)
    ∧ (t (Zones.modifyZoneCall serverId zoneId body) = Except.error e →
        Zones.modifyZone t serverId zoneId body = Except.error e)
    ∧ (t (Zones.exportZoneCall serverId zoneId) = Except.error e →
        Zones.exportZone t serverId zoneId = Except.error e)
    ∧ (t (Metadata.getMetadataCall serverId zoneId metadataKind) = Except.error e →
        Metadata.getMetadata t serverId zoneId metadataKind = Except.error e)
    ∧ (t (Metadata.updateMetadataCall serverId zoneId metadataKind values) = Except.error e →
        Metadata.updateMetadata t serverId zoneId metadataKind values = Except.error e)
    ∧ (t (Cryptokeys.getKeyCall serverId zoneId keyId) = Except.error e →
        Cryptokeys.getKey t serverId zoneId keyId = Except.error e)
    ∧ (t (Searching.searchDataCall serverId query) = Except.error e →
        Searching.searchData t serverId query = Except.error e)
    ∧ (t (Statistics.getStatisticsCall serverId options) = Except.error e →
        Statistics.getStatistics t serverId options = Except.error e)
    ∧ (t (Cache.flushCacheCall serverId domain) = Except.error e →
        Cache.flushCache t serverId domain = Except.error e) := by
  refine ⟨?_, ?_, ?_, ?_, ?_, ?_, ?_, ?_, ?_, ?_, ?_⟩ <;>
    · intro h
      first
        | (unfold Zones.getZone; rw [h]; rfl)
        | (unfold Zones.createZone; rw [h]; rfl)
        | (unfold Zones.updateZoneRRsets; rw [h]; rfl)
        | (unfold Zones.modifyZone; rw [h]; rfl)
        | (unfold Zones.exportZone; rw [h]; rfl)
        | (unfold Metadata.getMetadata; rw [h]; rfl)
        | (unfold Metadata.updateMetadata; rw [h]; rfl)
        | (unfold Cryptokeys.getKey; rw [h]; rfl)
        | (unfold Searching.searchData; rw [h]; rfl)
        | (unfold Statistics.getStatistics; rw [h]; rfl)
        | (unfold Cache.flushCache; rw [h]; rfl)

/-- C8 witness: a stub that always rejects makes getZone reject with the same
error value. -/
theorem c8_error_propagation_witness :
    Zones.getZone (fun _ => (Except.error "boom" : Except String Nat)) "localhost" "example.org."
      = Except.error "boom" :=
  (c8_error_propagation (fun _ => (Except.error "boom" : Except String Nat)) "boom"
      "localhost" "example.org." "k" "q" "d" JsonValue.null [] 0 none).1 rfl

/-- C9: when the transport stub resolves the constructed call with a value,
each module method resolves with exactly that value, unchanged — including an
empty list or an absent (none) value, since the result type is arbitrary.
Stated for every method modelled from the source. -/
theorem c9_value_passthrough {ε α : Type} (t : TransportCall → Except ε α) (v : α)
    (serverId zoneId metadataKind query domain : String) (body : JsonValue)
    (values : List String) (keyId : Nat) (options : Option Statistics.StatisticsOptions) :
    (t (Zones.getZoneCall serverId zoneId) = Except.ok v →
        Zones.getZone t serverId zoneId = Except.ok v)
    ∧ (t (Zones.createZoneCall serverId body) = Except.ok v →
        Zones.createZone t serverId body = Except.ok v)
    ∧ (t (Zones.updateZoneRRsetsCall serverId zoneId body) = Except.ok v →
        Zones.updateZoneRRsets t serverId zoneId body = Except.ok v)
    ∧ (t (Zones.modifyZoneCall serverId zoneId body) = Except.ok v →
        Zones.modifyZone t serverId zoneId body = Except.ok v)
    ∧ (t (Zones.exportZoneCall serverId zoneId) = Except.ok v →
        Zones.exportZone t serverId zoneId = Except.ok v)
    ∧ (t (Metadata.getMetadataCall serverId zoneId metadataKind) = Except.ok v →
        Metadata.getMetadata t serverId zoneId metadataKind = Except.ok v)
    ∧ (t (Metadata.updateMetadataCall serverId zoneId metadataKind values) = Except.ok v →
        Metadata.updateMetadata t serverId zoneId metadataKind values = Except.ok v)
    ∧ (t (Cryptokeys.getKeyCall serverId zoneId keyId) = Except.ok v →
        Cryptokeys.getKey t serverId zoneId keyId = Except.ok v)
    ∧ (t (Searching.searchDataCall serverId query) = Except.ok v →
        Searching.searchData t serverId query = Except.ok v)
    ∧ (t (Statistics.getStatisticsCall serverId options) = Except.ok v →
        Statistics.getStatistics t serverId options = Except.ok v)
    ∧ (t (Cache.flushCacheCall serverId domain) = Except.ok v →
        Cache.flushCache t serverId domain = Except.ok v) := by
  refine ⟨?_, ?_, ?_, ?_, ?_, ?_, ?_, ?_, ?_, ?_, ?_⟩ <;>
    · intro h
      first
        | (unfold Zones.getZone; rw [h]; rfl)
        | (unfold Zones.createZone; rw [h]; rfl)
        | (unfold Zones.updateZoneRRsets; rw [h]; rfl)
        | (unfold Zones.modifyZone; rw [h]; rfl)
        | (unfold Zones.exportZone; rw [h]; rfl)
        | (unfold Metadata.getMetadata; rw [h]; rfl)
        | (unfold Metadata.updateMetadata; rw [h]; rfl)
        | (unfold Cryptokeys.getKey; rw [h]; rfl)
        | (unfold Searching.searchData; rw [h]; rfl)
        | (unfold Statistics.getStatistics; rw [h]; rfl)
        | (unfold Cache.flushCache; rw [h]; rfl)

/-- C9 witness: a stub that resolves with the empty list makes searchData
resolve with exactly the empty list. -/
theorem c9_value_passthrough_witness :
    Searching.searchData (fun _ => (Except.ok [] : Except String (List Nat))) "localhost" "*.org"
      = Except.ok [] :=
  (c9_value_passthrough (fun _ => (Except.ok [] : Except String (List Nat))) []
      "localhost" "example.org." "k" "*.org" "d" JsonValue.null [] 0 none).2.2.2.2.2.2.2.2.1 rfl

end PdnsSdk
